import Mathlib

/-!
Verification of the context-aware EV charging-station ranking engine
(`backend/services/Hybrid_Algorithm.py`, class `HybridAlgorithm`).

The Python code is shallowly embedded below.  Python floats are modelled as
exact rationals (`ℚ`); Python's `round(x, n)` (round-half-even on the scaled
value) is modelled by `pyRound`.  The haversine distance and the compass
bearing are transcendental functions of the coordinates; they are abstracted
into a `Geo` record of pure functions (the code's `haversine_distance` and
`calculate_bearing` are deterministic, pure functions of the coordinate
pairs, which is all the ranking logic depends on).  Wall-clock readings
(`time.time()` used for the `processing_time_ms` metadata and
`datetime.now()` used for the displayed arrival time) enter as explicit
parameters `elapsedMs` and `now`.

Enumerated string parameters (urgency, terrain, traffic, weather, driving
mode) are modelled as inductive types with an `other` constructor standing
for any string outside the known keys, mirroring `dict.get(key, default)`.
Candidate stations are modelled in the `ChargingStation` model format
(`latitude`/`longitude`/`available_slots`/`total_slots`/... fields); the
raw-JSON `chargers` branch of `_normalize_station_data` (charger tallies and
regex price parsing) is not exercised by the claims under study.
-/

namespace EVCharging

/-! ### Python `round` (round-half-even), on exact rationals -/

/-- Round to the nearest integer, ties to even (Python's `round`). -/
def rndHalfEven (x : ℚ) : ℤ :=
  let f : ℤ := ⌊x⌋
  let r : ℚ := x - f
  if r < 1/2 then f
  else if 1/2 < r then f + 1
  else if f % 2 = 0 then f else f + 1

/-- Python's `round(x, n)`, modelled exactly on rationals. -/
def pyRound (n : ℕ) (x : ℚ) : ℚ :=
  (rndHalfEven (x * 10 ^ n) : ℚ) / 10 ^ n

/-! ### Enumerated context parameters -/

inductive Urgency
  | low
  | medium
  | high
  | emergency
  | other
deriving DecidableEq

inductive Terrain
  | flat
  | hilly
  | steep
  | other
deriving DecidableEq

inductive DrivingMode
  | economy
  | sports
  | random
  | other
deriving DecidableEq

inductive Traffic
  | heavy
  | medium
  | light
  | other
deriving DecidableEq

inductive Weather
  | clear
  | rain
  | fog
  | snow
  | other
deriving DecidableEq

/-! ### Data model -/

/-- A candidate station record (`ChargingStation` model format).  Optional
fields model keys that may be absent from the Python dict. -/
structure Station where
  id : ℕ
  name : String := "Unknown Station"
  latitude : Option ℚ := none
  longitude : Option ℚ := none
  location : Option (List ℚ) := none
  available_slots : Option ℕ := none
  total_slots : Option ℕ := none
  connector_types : List String := []
  pricing_per_kwh : Option ℚ := none
  rating : Option ℚ := none
deriving DecidableEq

/-- The user context dict, with the defaults the code supplies via
`user_context.get(...)`. -/
structure UserContext where
  battery_percentage : ℚ := 100
  ac_status : Bool := false
  passengers : ℤ := 1
  terrain : Terrain := .flat
  plug_type : String := ""
  urgency : Urgency := .medium
  driving_mode : DrivingMode := .random
  traffic_condition : Traffic := .light
  weather : Weather := .clear
  destination_city : Option String := none
  max_detour_km : ℚ := 20
  filter_unreachable : Bool := false
deriving DecidableEq

/-- Abstracted geometry: the pure distance and bearing functions
(`haversine_distance`, `calculate_bearing`). -/
structure Geo where
  dist : ℚ × ℚ → ℚ × ℚ → ℚ
  bearing : ℚ × ℚ → ℚ × ℚ → ℚ

/-! ### EnergyModel — `calculate_energy_consumption` -/

def terrainMultiplier : Terrain → ℚ
  | .flat => 1
  | .hilly => 6/5
  | .steep => 3/2
  | .other => 1

def baseConsumption (d : ℚ) : ℚ := d * (1/5)

def acPenaltyOf (d : ℚ) (ac : Bool) : ℚ :=
  if ac then baseConsumption d * (3/20) else 0

def passengerPenaltyOf (d : ℚ) (p : ℤ) : ℚ :=
  baseConsumption d * ((max 0 (p - 1) : ℤ) * (3/100))

def terrainPenaltyOf (d : ℚ) (t : Terrain) : ℚ :=
  baseConsumption d * (terrainMultiplier t - 1)

/-- The exact (pre-rounding) `total_consumption` of
`calculate_energy_consumption`; this exact value is what the reachability
comparison and the efficiency score use. -/
def totalConsumption (d : ℚ) (ac : Bool) (p : ℤ) (t : Terrain) : ℚ :=
  baseConsumption d + acPenaltyOf d ac + passengerPenaltyOf d p + terrainPenaltyOf d t

structure EnergyAnalysis where
  base_consumption_kwh : ℚ
  ac_penalty_kwh : ℚ
  passenger_penalty_kwh : ℚ
  terrain_penalty_kwh : ℚ
  total_consumption_kwh : ℚ
  available_energy_kwh : ℚ
  usable_energy_kwh : ℚ
  is_reachable : Bool
  energy_efficiency_score : ℚ
deriving DecidableEq

def calculateEnergyConsumption (d : ℚ) (ac : Bool) (p : ℤ) (t : Terrain)
    (battery : ℚ) : EnergyAnalysis :=
  let total := totalConsumption d ac p t
  let available := battery / 100 * 60
  let usable := available * (4/5)
  { base_consumption_kwh := pyRound 2 (baseConsumption d)
    ac_penalty_kwh := pyRound 2 (acPenaltyOf d ac)
    passenger_penalty_kwh := pyRound 2 (passengerPenaltyOf d p)
    terrain_penalty_kwh := pyRound 2 (terrainPenaltyOf d t)
    total_consumption_kwh := pyRound 2 total
    available_energy_kwh := pyRound 2 available
    usable_energy_kwh := pyRound 2 usable
    is_reachable := if total ≤ usable then true else false
    energy_efficiency_score := if 0 < usable then max 0 (1 - total / usable) else 0 }

/-! ### ETAModel — `calculate_eta` (display-only string fields and the
wall-clock arrival stamp are not part of this record; the arrival time is
attached to recommendations from the `now` parameter). -/

def drivingSpeed : DrivingMode → ℚ
  | .economy => 30
  | .sports => 60
  | .random => 45
  | .other => 45

def trafficMult : Traffic → ℚ
  | .heavy => 3/5
  | .medium => 4/5
  | .light => 1
  | .other => 1

def terrainSpeedImpact : Terrain → ℚ
  | .flat => 1
  | .hilly => 4/5
  | .steep => 3/5
  | .other => 1

def weatherImpact : Weather → ℚ
  | .clear => 1
  | .rain => 9/10
  | .fog => 7/10
  | .snow => 1/2
  | .other => 1

structure EtaAnalysis where
  distance_km : ℚ
  effective_speed_kmh : ℚ
  travel_time_hours : ℚ
  travel_time_minutes : ℚ
  travel_time_seconds : ℚ
deriving DecidableEq

def calculateEta (d : ℚ) (mode : DrivingMode) (tc : Traffic) (t : Terrain)
    (w : Weather) (customSpeed : Option ℚ := none) : EtaAnalysis :=
  let raw : ℚ :=
    match customSpeed with
    | some s => s
    | none => drivingSpeed mode * trafficMult tc * terrainSpeedImpact t * weatherImpact w
  let speed := max 5 (min 120 raw)
  let hours := d / speed
  let minutes := hours * 60
  { distance_km := pyRound 2 d
    effective_speed_kmh := pyRound 1 speed
    travel_time_hours := pyRound 3 hours
    travel_time_minutes := pyRound 1 minutes
    travel_time_seconds := pyRound 0 (minutes * 60) }

/-! ### WeightSelector — `base_weights`, `context_weight_adjustments`,
battery-level adjustments and normalization (lines 22–70 and 523–562). -/

structure Weights where
  distance : ℚ
  availability : ℚ
  energy_efficiency : ℚ
  urgency : ℚ
  price : ℚ
  plug_compatibility : ℚ
  rating : ℚ
deriving DecidableEq

def baseWeights : Weights :=
  ⟨1/4, 1/5, 3/20, 3/20, 1/10, 1/10, 1/20⟩

/-- `context_weight_adjustments[urgency]`, falling back to `base_weights`
for an unknown urgency string. -/
def urgencyWeights : Urgency → Weights
  | .emergency => ⟨2/5, 3/10, 1/5, 1/10, 0, 0, 0⟩
  | .high => ⟨7/20, 1/4, 1/5, 3/20, 1/20, 0, 0⟩
  | .medium => ⟨1/4, 1/5, 3/20, 3/20, 1/10, 1/10, 1/20⟩
  | .low => ⟨1/5, 3/20, 1/10, 1/20, 1/5, 3/20, 3/20⟩
  | .other => baseWeights

/-- The battery-level weight adjustments of `calculate_enhanced_score`
(lines 532–547).  Note the `max`-floors: `price` is floored at 0.05 and
`rating` at 0.02 in the low-battery tiers. -/
def batteryAdjust (b : ℚ) (w : Weights) : Weights :=
  if b ≤ 20 then
    { w with
      energy_efficiency := min (7/20) (w.energy_efficiency * (3/2))
      distance := min (7/20) (w.distance * (13/10))
      price := max (1/20) (w.price * (1/2))
      rating := max (1/50) (w.rating * (1/2)) }
  else if b ≤ 40 then
    { w with
      energy_efficiency := min (3/10) (w.energy_efficiency * (13/10))
      distance := min (3/10) (w.distance * (6/5))
      price := max (1/20) (w.price * (7/10)) }
  else if 80 ≤ b then
    { w with
      price := min (3/20) (w.price * (13/10))
      rating := min (2/25) (w.rating * (3/2))
      energy_efficiency := max (2/25) (w.energy_efficiency * (4/5)) }
  else w

def weightSum (w : Weights) : ℚ :=
  w.distance + w.availability + w.energy_efficiency + w.urgency + w.price +
    w.plug_compatibility + w.rating

/-- Normalization of the weight dict (lines 555–562), with the guarded
fallback to `base_weights` when the sum is not positive. -/
def normalizeWeights (w : Weights) : Weights :=
  let s := weightSum w
  if 0 < s then
    ⟨w.distance / s, w.availability / s, w.energy_efficiency / s, w.urgency / s,
      w.price / s, w.plug_compatibility / s, w.rating / s⟩
  else baseWeights

/-- The weight vector `calculate_enhanced_score` actually multiplies the
seven factor scores by, for a given urgency tier and (clamped) battery
percentage. -/
def effectiveWeights (u : Urgency) (b : ℚ) : Weights :=
  normalizeWeights (batteryAdjust b (urgencyWeights u))

/-! ### ScoringEngine — the sub-scores of `calculate_enhanced_score` -/

/-- The normalized station data that `_normalize_station_data` produces for
a `ChargingStation`-model record. -/
structure NormStation where
  id : ℕ
  availability : ℕ
  total_slots : ℕ
  connector_types : List String
  pricing : ℚ
  rating : ℚ
deriving DecidableEq

def normalizeStation (s : Station) : NormStation :=
  { id := s.id
    availability := s.available_slots.getD 0
    total_slots := s.total_slots.getD 0
    connector_types := s.connector_types
    pricing := s.pricing_per_kwh.getD 20
    rating := s.rating.getD 4 }

def clampQ (lo hi x : ℚ) : ℚ := max lo (min hi x)

def distanceScore (d : ℚ) : ℚ := max 0 (1 - d / 50)

def availabilityScore (a t : ℕ) : ℚ :=
  if 0 < t then (a : ℚ) / (t : ℚ) else 0

/-- Battery-tier adjustment of the raw energy-efficiency score
(lines 426–448). -/
def adjustedEnergyScore (battery : ℚ) (reachable : Bool) (e : ℚ) : ℚ :=
  if battery ≤ 20 then (if reachable then min 1 (e * 2) else 0)
  else if battery ≤ 40 then (if reachable then min 1 (e * (3/2)) else e * (1/5))
  else if battery ≤ 60 then (if reachable then min 1 (e * (6/5)) else e * (1/2))
  else (if reachable then e else 0)

def urgencyMultiplier : Urgency → ℚ
  | .low => 3/10
  | .medium => 3/5
  | .high => 4/5
  | .emergency => 1
  | .other => 3/5

/-- Urgency score with the distance/rating bonuses (lines 460–488). -/
def urgencyScoreOf (u : Urgency) (d rating : ℚ) : ℚ :=
  match u with
  | .emergency =>
      if d ≤ 5 then min 1 (1 + 3/10)
      else if d ≤ 15 then min 1 (1 + 1/5)
      else 1
  | .high =>
      if d ≤ 10 then min 1 (urgencyMultiplier .high + 1/5)
      else if d ≤ 25 then min 1 (urgencyMultiplier .high + 1/10)
      else urgencyMultiplier .high
  | .low =>
      if 4 ≤ rating then min 1 (urgencyMultiplier .low + 1/10)
      else urgencyMultiplier .low
  | u => urgencyMultiplier u

/-- `price_score = max(0, 1 - ((pricing - 10) / (35 - 10)))` — note there is
no upper clamp in the code. -/
def priceScore (p : ℚ) : ℚ := max 0 (1 - (p - 10) / 25)

def plugCompatibilityScore (plug : String) (cts : List String) : ℚ :=
  if plug ∈ cts ∨ plug = "" then 1 else 3/10

def ratingScore (r : ℚ) : ℚ := r / 5

/-- `eta_score` from the (1-decimal rounded) `travel_time_minutes`. -/
def etaScore (minutes : ℚ) : ℚ := max 0 (1 - minutes / 120)

structure Breakdown where
  distance_score : ℚ
  availability_score : ℚ
  energy_efficiency_score : ℚ
  urgency_score : ℚ
  price_score : ℚ
  plug_compatibility_score : ℚ
  rating_score : ℚ
  eta_score : ℚ
deriving DecidableEq

structure ScoreAnalysis where
  total_score : ℚ
  breakdown : Breakdown
  energy_analysis : EnergyAnalysis
  eta_analysis : EtaAnalysis
  is_reachable : Bool
  weights_used : Weights
deriving DecidableEq

/-- `calculate_enhanced_score` (lines 362–592). -/
def calculateEnhancedScore (st : NormStation) (distance : ℚ)
    (ctx : UserContext) : ScoreAnalysis :=
  let battery := clampQ 1 100 ctx.battery_percentage
  let passengers := max 1 (min 8 ctx.passengers)
  let dSc := distanceScore distance
  let aSc := availabilityScore st.availability st.total_slots
  let ea := calculateEnergyConsumption distance ctx.ac_status passengers ctx.terrain battery
  let eSc := adjustedEnergyScore battery ea.is_reachable ea.energy_efficiency_score
  let eta := calculateEta distance ctx.driving_mode ctx.traffic_condition ctx.terrain ctx.weather
  let uSc := urgencyScoreOf ctx.urgency distance st.rating
  let pSc := priceScore st.pricing
  let plSc := plugCompatibilityScore ctx.plug_type st.connector_types
  let rSc := ratingScore st.rating
  let etSc := etaScore eta.travel_time_minutes
  let w := effectiveWeights ctx.urgency battery
  let composite :=
    w.distance * dSc + w.availability * aSc + w.energy_efficiency * eSc +
      w.urgency * uSc + w.price * pSc + w.plug_compatibility * plSc +
      w.rating * rSc + etSc * (1/10)
  { total_score := min 1 (max 0 composite)
    breakdown :=
      ⟨pyRound 3 dSc, pyRound 3 aSc, pyRound 3 eSc, pyRound 3 uSc,
        pyRound 3 pSc, pyRound 3 plSc, pyRound 3 rSc, pyRound 3 etSc⟩
    energy_analysis := ea
    eta_analysis := eta
    is_reachable := ea.is_reachable
    weights_used := w }

/-! ### RouteFilter — `is_station_along_route` and the per-candidate route
decision of the orchestrator -/

structure RouteAnalysis where
  is_along_route : Bool
  detour_distance : ℚ
  direct_distance : ℚ
  via_station_distance : ℚ
  angle_difference : ℚ
  distance_to_station : ℚ
  distance_station_to_dest : ℚ
  route_efficiency : ℚ
deriving DecidableEq

def urgencyAngleMult : Urgency → ℚ
  | .low => 4/5
  | .medium => 1
  | .high => 6/5
  | .emergency => 3/2
  | .other => 1

def urgencyDetourMult : Urgency → ℚ
  | .low => 4/5
  | .medium => 1
  | .high => 3/2
  | .emergency => 2
  | .other => 1

/-- `is_station_along_route` (lines 1494–1564). -/
def isStationAlongRoute (geo : Geo) (userLoc destCoords stLoc : ℚ × ℚ)
    (maxDetour : ℚ) (u : Urgency) : RouteAnalysis :=
  let direct := geo.dist userLoc destCoords
  let dToS := geo.dist userLoc stLoc
  let dStoD := geo.dist stLoc destCoords
  let via := dToS + dStoD
  let detour := via - direct
  let bd := geo.bearing userLoc destCoords
  let bs := geo.bearing userLoc stLoc
  let ad0 := |bd - bs|
  let ad := if 180 < ad0 then 360 - ad0 else ad0
  let angleLimit := 90 * urgencyAngleMult u
  { is_along_route := if detour ≤ maxDetour ∧ ad ≤ angleLimit then true else false
    detour_distance := detour
    direct_distance := direct
    via_station_distance := via
    angle_difference := ad
    distance_to_station := dToS
    distance_station_to_dest := dStoD
    route_efficiency := if 0 < via then direct / via else 0 }

/-- The orchestrator's per-candidate route decision (lines 685–712): the
urgency-scaled detour budget, `is_station_along_route`, then the emergency
override forcing `is_along_route` for stations within 50 km of the user. -/
def routeCheck (geo : Geo) (userLoc destCoords stLoc : ℚ × ℚ)
    (ctx : UserContext) : RouteAnalysis :=
  let adjustedMaxDetour := ctx.max_detour_km * urgencyDetourMult ctx.urgency
  let ra := isStationAlongRoute geo userLoc destCoords stLoc adjustedMaxDetour ctx.urgency
  if ctx.urgency = .emergency ∧ ra.distance_to_station ≤ 50 then
    { ra with is_along_route := true }
  else ra

/-! ### City lookup — `get_city_coordinates`.  Modelled as exact lookup in
the `city_coords` table; the `.title()` case normalization and the substring
fuzzy fallback only widen which strings resolve and are not modelled. -/

def cityCoords : List (String × (ℚ × ℚ)) :=
  [("Kathmandu", (27.7172, 85.3240)), ("Pokhara", (28.2096, 83.9856)),
   ("Butwal", (27.7000, 83.4500)), ("Biratnagar", (26.4525, 87.2718)),
   ("Bharatpur", (27.6780, 84.4360)), ("Janakpur", (26.7288, 85.9244)),
   ("Dharan", (26.8147, 87.2791)), ("Hetauda", (27.4280, 85.0440)),
   ("Nepalgunj", (28.0500, 81.6167)), ("Birgunj", (27.0170, 84.8800)),
   ("Dhangadhi", (28.7000, 80.6000)), ("Itahari", (26.6650, 87.2700)),
   ("Gorkha", (28.0000, 84.6333)), ("Palpa", (27.8667, 83.5500)),
   ("Lumbini", (27.4833, 83.2833)), ("Chitwan", (27.5291, 84.3542)),
   ("Dang", (28.0333, 82.3000)), ("Kanchanpur", (28.8333, 80.1667)),
   ("Mahendranagar", (28.9644, 80.1811)), ("Dadeldhura", (29.3000, 80.5833))]

def getCityCoordinates (n : String) : Option (ℚ × ℚ) :=
  (cityCoords.find? (fun c => c.1 = n)).map (fun c => c.2)

/-! ### RecommendationOrchestrator — `get_enhanced_recommendations` -/

/-- The fallback annotations a recommendation can carry (the code stores
human-readable strings; the numbers interpolated into the energy-shortfall
message are carried as fields). -/
inductive FallbackReason
  | energyShortfall (needed available : ℚ)
  | basicScoringIssues
deriving DecidableEq

/-- The 4-field `route_analysis` summary stored on a recommendation
(lines 805–811). -/
structure RouteSummary where
  is_along_route : Bool
  detour_distance : ℚ
  route_efficiency : ℚ
  distance_to_destination : ℚ
deriving DecidableEq

/-- A recommendation entry.  Fields that the basic-fallback entries
(lines 858–871) do not carry are `Option`s; pass-through string decoration
(`address`, `features`, `operating_hours`) is omitted.  The two energy
numbers used by the fallback messages are carried directly
(`energy_total_kwh`, `energy_usable_kwh`: the main path stores the rounded
values of the energy analysis, the basic-fallback path stores unrounded
`distance * 0.2` and `battery/100 * 60 * 0.8`). -/
structure Recommendation where
  id : ℕ
  name : String
  location : ℚ × ℚ
  distance : ℚ
  score : ℚ
  score_breakdown : Option Breakdown := none
  route_efficiency_bonus : Option ℚ := none
  energy_total_kwh : ℚ
  energy_usable_kwh : ℚ
  energy_full : Option EnergyAnalysis := none
  eta_analysis : Option EtaAnalysis := none
  arrival_time : Option ℚ := none
  is_reachable : Bool
  availability : Option ℕ := none
  total_slots : Option ℕ := none
  connector_types : Option (List String) := none
  pricing : Option ℚ := none
  rating : Option ℚ := none
  route_analysis : Option RouteSummary := none
  fallback_recommendation : Bool := false
  fallback_reason : Option FallbackReason := none
deriving DecidableEq

/-- Station coordinate resolution (lines 666–681): `latitude`/`longitude`
fields first, else a `location` entry, finally the length-2 check. -/
def resolveLocation (s : Station) : Option (ℚ × ℚ) :=
  match s.latitude, s.longitude with
  | some la, some lo => some (la, lo)
  | _, _ =>
    match s.location with
    | some [a, b] => some (a, b)
    | _ => none

/-- Coordinate resolution in the basic-fallback block (lines 843–852): only
truthiness is checked there, and a length-1 list raises (caught and
skipped), so any list with at least two entries is used. -/
def resolveLocationBasic (s : Station) : Option (ℚ × ℚ) :=
  match s.latitude, s.longitude with
  | some la, some lo => some (la, lo)
  | _, _ =>
    match s.location with
    | some (a :: b :: _) => some (a, b)
    | _ => none

/-- Outcome of the per-candidate loop body for one station. -/
inductive Outcome
  | invalid
  | routeFiltered
  | unreachableFiltered
  | scored (r : Recommendation)
deriving DecidableEq

def Outcome.getScored : Outcome → Option Recommendation
  | .scored r => some r
  | _ => none

def Outcome.isRouteFiltered : Outcome → Bool
  | .routeFiltered => true
  | _ => false

def Outcome.isUnreachableFiltered : Outcome → Bool
  | .unreachableFiltered => true
  | _ => false

/-- Score a route-admitted candidate and either drop it as unreachable or
build its recommendation entry (lines 722–813).  The per-station exception
handler (lines 734–759) is unreachable in the embedding: the embedded score
computation is total. -/
def buildRec (geo : Geo) (userLoc stLoc : ℚ × ℚ) (ctx : UserContext)
    (shouldFilter : Bool) (s : Station) (raOpt : Option RouteAnalysis) : Outcome :=
  let distance := geo.dist userLoc stLoc
  let ns := normalizeStation s
  let sa := calculateEnhancedScore ns distance ctx
  let withBonus : ℚ × Option ℚ :=
    match raOpt with
    | some ra =>
        if ra.is_along_route then
          (min 1 (sa.total_score + ra.route_efficiency * (1/10)),
            some (pyRound 3 (ra.route_efficiency * (1/10))))
        else (sa.total_score, none)
    | none => (sa.total_score, none)
  if shouldFilter && !sa.is_reachable then .unreachableFiltered
  else
    .scored
      { id := s.id
        name := s.name
        location := stLoc
        distance := pyRound 2 distance
        score := withBonus.1
        score_breakdown := some sa.breakdown
        route_efficiency_bonus := withBonus.2
        energy_total_kwh := sa.energy_analysis.total_consumption_kwh
        energy_usable_kwh := sa.energy_analysis.usable_energy_kwh
        energy_full := some sa.energy_analysis
        eta_analysis := some sa.eta_analysis
        is_reachable := sa.is_reachable
        availability := some ns.availability
        total_slots := some ns.total_slots
        connector_types := some ns.connector_types
        pricing := some ns.pricing
        rating := some ns.rating
        route_analysis := raOpt.map (fun ra =>
          ⟨ra.is_along_route, pyRound 2 ra.detour_distance,
            pyRound 3 ra.route_efficiency, pyRound 2 ra.distance_station_to_dest⟩) }

/-- The per-candidate loop body (lines 664–813). -/
def processStation (geo : Geo) (userLoc : ℚ × ℚ) (destCoords : Option (ℚ × ℚ))
    (ctx : UserContext) (shouldFilter : Bool) (s : Station) : Outcome :=
  match resolveLocation s with
  | none => .invalid
  | some stLoc =>
    match destCoords with
    | some d =>
        let ra := routeCheck geo userLoc d stLoc ctx
        if ra.is_along_route then buildRec geo userLoc stLoc ctx shouldFilter s (some ra)
        else .routeFiltered
    | none => buildRec geo userLoc stLoc ctx shouldFilter s none

/-- The sort key of line 820: score descending.  Python's `list.sort` is
stable; `List.insertionSort` is the matching stable sort. -/
def scoreGE (a b : Recommendation) : Prop := b.score ≤ a.score

instance : DecidableRel scoreGE := fun a b => inferInstanceAs (Decidable (b.score ≤ a.score))

instance : IsTotal Recommendation scoreGE := ⟨fun a b => le_total b.score a.score⟩

instance : IsTrans Recommendation scoreGE := ⟨fun _ _ _ h1 h2 => le_trans h2 h1⟩

def sortByScore (l : List Recommendation) : List Recommendation :=
  List.insertionSort scoreGE l

/-- `should_filter_unreachable` (lines 656–660), from the raw (unclamped)
battery percentage. -/
def shouldFilterUnreachable (ctx : UserContext) : Bool :=
  if ctx.battery_percentage ≤ 30 ∨ ctx.urgency = .high ∨ ctx.urgency = .emergency ∨
      ctx.filter_unreachable = true then true
  else false

def destCoordsOf (ctx : UserContext) : Option (ℚ × ℚ) :=
  ctx.destination_city.bind getCityCoordinates

def outcomesOf (geo : Geo) (userLoc : ℚ × ℚ) (ctx : UserContext)
    (stations : List Station) : List Outcome :=
  stations.map (processStation geo userLoc (destCoordsOf ctx) ctx (shouldFilterUnreachable ctx))

/-- The `scored_stations` list right after the per-candidate loop. -/
def scoredOf (geo : Geo) (userLoc : ℚ × ℚ) (ctx : UserContext)
    (stations : List Station) : List Recommendation :=
  (outcomesOf geo userLoc ctx stations).filterMap Outcome.getScored

/-- `scored_stations` after the first sort (line 820). -/
def sortedScoredOf (geo : Geo) (userLoc : ℚ × ℚ) (ctx : UserContext)
    (stations : List Station) : List Recommendation :=
  sortByScore (scoredOf geo userLoc ctx stations)

/-- The reduced-score fallback for unreachable stations (lines 822–835):
halve the score of every unreachable entry, flag it, and re-sort. -/
def applyHalvingFallback (shouldFilter : Bool) (scored : List Recommendation) :
    List Recommendation :=
  let reachable := scored.filter (fun r => r.is_reachable)
  if shouldFilter && reachable.isEmpty && !scored.isEmpty then
    sortByScore (scored.map (fun r =>
      if r.is_reachable then r
      else
        { r with
          score := r.score * (1/2)
          fallback_recommendation := true
          fallback_reason := some (.energyShortfall r.energy_total_kwh r.energy_usable_kwh) }))
  else scored

/-- The basic distance-only fallback recommendations (lines 838–875),
created from the first `max_recommendations` raw candidates when no station
was scored at all. -/
def basicFallbackRecs (geo : Geo) (userLoc : ℚ × ℚ) (battery : ℚ)
    (stations : List Station) (maxRecommendations : ℕ) : List Recommendation :=
  (stations.take maxRecommendations).filterMap (fun s =>
    (resolveLocationBasic s).map (fun stLoc =>
      let d := geo.dist userLoc stLoc
      { id := s.id
        name := s.name
        location := stLoc
        distance := pyRound 2 d
        score := max (1/10) (1 - d / 50)
        energy_total_kwh := d * (1/5)
        energy_usable_kwh := battery / 100 * 60 * (4/5)
        is_reachable := true
        fallback_recommendation := true
        fallback_reason := some .basicScoringIssues }))

/-- The final `scored_stations` list after both fallback stages
(lines 822–875). -/
def finalScoredOf (geo : Geo) (userLoc : ℚ × ℚ) (ctx : UserContext)
    (stations : List Station) (maxRecommendations : ℕ) : List Recommendation :=
  let afterHalving :=
    applyHalvingFallback (shouldFilterUnreachable ctx) (sortedScoredOf geo userLoc ctx stations)
  if afterHalving.isEmpty && !stations.isEmpty then
    basicFallbackRecs geo userLoc ctx.battery_percentage stations maxRecommendations
  else afterHalving

/-- Attach the displayed arrival timestamp (`datetime.now() + travel time`,
computed inside `calculate_eta`) from the clock parameter `now`. -/
def attachArrival (now : ℚ) (r : Recommendation) : Recommendation :=
  { r with arrival_time := r.eta_analysis.map (fun e => now + e.travel_time_hours) }

/-- The run metadata (`algorithm_info`).  `algorithm_used` is the fixed
label plus the optional `(Route to city)` suffix, modelled by `route_to`;
`processing_time_ms` is the wall-clock measurement, a parameter here. -/
structure AlgorithmInfo where
  route_to : Option String := none
  processing_time_ms : ℚ := 0
  total_stations_processed : ℕ := 0
  stations_filtered : ℕ := 0
  route_filtered : ℕ := 0
  unreachable_filtered : ℕ := 0
  reachable_stations : ℕ := 0
  filter_unreachable : Bool := false
  route_filtering : Bool := false
  battery_percentage : ℚ := 100
  urgency_level : Urgency := .medium
deriving DecidableEq

structure RecResult where
  recommendations : List Recommendation
  algorithm_info : AlgorithmInfo
deriving DecidableEq

/-- `get_enhanced_recommendations` (lines 594–911).  `now` is the clock
reading used for the displayed arrival times and `elapsedMs` the measured
processing time; neither influences scoring, filtering or ordering. -/
def getEnhancedRecommendations (geo : Geo) (now elapsedMs : ℚ)
    (userLoc : ℚ × ℚ) (stations : List Station) (ctx : UserContext)
    (maxRecommendations : ℕ := 5) : RecResult :=
  if stations = [] then
    { recommendations := []
      algorithm_info := { processing_time_ms := 0, total_stations_processed := 0 } }
  else
    let destCoords := destCoordsOf ctx
    let routeEnabled := destCoords.isSome
    let shouldFilter := shouldFilterUnreachable ctx
    let outcomes := outcomesOf geo userLoc ctx stations
    let sorted := sortedScoredOf geo userLoc ctx stations
    let reachableCount := (sorted.filter (fun r => r.is_reachable)).length
    let finalScored := finalScoredOf geo userLoc ctx stations maxRecommendations
    { recommendations := (finalScored.take maxRecommendations).map (attachArrival now)
      algorithm_info :=
        { route_to := if routeEnabled then ctx.destination_city else none
          processing_time_ms := elapsedMs
          total_stations_processed := stations.length
          stations_filtered := stations.length - finalScored.length
          route_filtered :=
            if routeEnabled then (outcomes.filter Outcome.isRouteFiltered).length else 0
          unreachable_filtered :=
            if shouldFilter then (outcomes.filter Outcome.isUnreachableFiltered).length else 0
          reachable_stations := reachableCount
          filter_unreachable := shouldFilter
          route_filtering := routeEnabled
          battery_percentage := ctx.battery_percentage
          urgency_level := ctx.urgency } }

/-! ### Small definable predicates and factored forms used by the theorems -/

/-- Membership in the unit interval. -/
def inUnit (x : ℚ) : Prop := 0 ≤ x ∧ x ≤ 1

/-- The per-km consumption factor: `totalConsumption d ac p t` equals
`d * consFactor ac p t`. -/
def consFactor (ac : Bool) (p : ℤ) (t : Terrain) : ℚ :=
  (1/5) * (1 + (if ac then (3/20 : ℚ) else 0) + ((max 0 (p - 1) : ℤ) : ℚ) * (3/100) +
    (terrainMultiplier t - 1))

/-! ### Concrete fixtures for the witness and counterexample theorems -/

def geoConst40 : Geo := ⟨fun _ _ => 40, fun _ _ => 0⟩

def geoConst5 : Geo := ⟨fun _ _ => 5, fun _ _ => 0⟩

def geoSplit : Geo := ⟨fun _ b => if b = ((1 : ℚ), (0 : ℚ)) then 100 else 30, fun _ _ => 0⟩

def geoRouteM : Geo :=
  ⟨fun a b =>
    if a = ((0 : ℚ), (0 : ℚ)) ∧ b = ((0 : ℚ), (1 : ℚ)) then 50
    else if a = ((0 : ℚ), (0 : ℚ)) ∧ b = ((1 : ℚ), (0 : ℚ)) then 60
    else if a = ((1 : ℚ), (0 : ℚ)) ∧ b = ((0 : ℚ), (1 : ℚ)) then 80
    else 0, fun _ _ => 0⟩

def geoRouteE : Geo :=
  ⟨fun a b => if a = ((0 : ℚ), (0 : ℚ)) ∧ b = ((1 : ℚ), (0 : ℚ)) then 40 else 100,
    fun _ _ => 0⟩

def stA : Station := ⟨1, "A", some 0, some 0, none, some 2, some 4, [], some 15, some 4⟩

def stB : Station := ⟨2, "B", some 0, some 0, none, some 2, some 4, [], some 15, some 4⟩

def stFar : Station := ⟨3, "F", some 1, some 0, none, some 2, some 4, [], some 15, some 4⟩

def stNear : Station := ⟨4, "N", some 2, some 0, none, some 2, some 4, [], some 15, some 4⟩

def stCheap : Station := ⟨5, "C", some 0, some 0, none, some 2, some 4, [], some 0, some 4⟩

def stInvalid : Station := ⟨6, "X", none, none, none, some 1, some 2, [], some 15, some 4⟩

def stRoute : Station := ⟨7, "R", some 1, some 0, none, some 2, some 4, [], some 15, some 4⟩

def ctxDefaultC : UserContext := {}

def ctxBat10Em : UserContext := { battery_percentage := 10, urgency := Urgency.emergency }

def ctxBat10Med : UserContext := { battery_percentage := 10 }

def ctxEmergOnly : UserContext := { urgency := Urgency.emergency }

/-! ## Theorems -/

/-! ### Properties of the exact model of Python `round` -/

theorem floor_le_rndHalfEven (x : ℚ) : ⌊x⌋ ≤ rndHalfEven x := by
  simp only [rndHalfEven]
  split_ifs <;> omega

theorem rndHalfEven_le_floor_add_one (x : ℚ) : rndHalfEven x ≤ ⌊x⌋ + 1 := by
  simp only [rndHalfEven]
  split_ifs <;> omega

theorem rndHalfEven_intCast (z : ℤ) : rndHalfEven (z : ℚ) = z := by
  simp only [rndHalfEven, Int.floor_intCast, sub_self]
  norm_num

theorem rndHalfEven_mono {x y : ℚ} (h : x ≤ y) : rndHalfEven x ≤ rndHalfEven y := by
  rcases lt_or_le ⌊x⌋ ⌊y⌋ with hf | hf
  · calc rndHalfEven x ≤ ⌊x⌋ + 1 := rndHalfEven_le_floor_add_one x
      _ ≤ ⌊y⌋ := by omega
      _ ≤ rndHalfEven y := floor_le_rndHalfEven y
  · have hxy : ⌊x⌋ = ⌊y⌋ := le_antisymm (Int.floor_le_floor h) hf
    have hr : x - (⌊y⌋ : ℚ) ≤ y - (⌊y⌋ : ℚ) := sub_le_sub_right h _
    simp only [rndHalfEven, hxy]
    split_ifs <;> first | omega | linarith

theorem pyRound_mono (n : ℕ) {x y : ℚ} (h : x ≤ y) : pyRound n x ≤ pyRound n y := by
  unfold pyRound
  have hp : (0 : ℚ) < 10 ^ n := by positivity
  have hm : x * 10 ^ n ≤ y * 10 ^ n := mul_le_mul_of_nonneg_right h (le_of_lt hp)
  exact div_le_div_of_nonneg_right (by exact_mod_cast rndHalfEven_mono hm) hp.le

theorem pyRound_nonneg (n : ℕ) {x : ℚ} (h : 0 ≤ x) : 0 ≤ pyRound n x := by
  have h0 : pyRound n 0 = 0 := by
    unfold pyRound
    rw [zero_mul, show ((0 : ℚ)) = ((0 : ℤ) : ℚ) by norm_num, rndHalfEven_intCast]
    norm_num
  calc (0 : ℚ) = pyRound n 0 := h0.symm
    _ ≤ pyRound n x := pyRound_mono n h

theorem pyRound_le_one (n : ℕ) {x : ℚ} (h : x ≤ 1) : pyRound n x ≤ 1 := by
  have h1 : pyRound n 1 = 1 := by
    unfold pyRound
    rw [one_mul, show ((10 : ℚ) ^ n) = (((10 : ℤ) ^ n : ℤ) : ℚ) by push_cast; ring,
      rndHalfEven_intCast]
    push_cast
    rw [div_self (by positivity)]
  calc pyRound n x ≤ pyRound n 1 := pyRound_mono n h
    _ = 1 := h1

/-! ### The stable sort by score -/

theorem sortByScore_sorted (l : List Recommendation) :
    List.Sorted scoreGE (sortByScore l) :=
  List.sorted_insertionSort scoreGE l

theorem sortByScore_length (l : List Recommendation) :
    (sortByScore l).length = l.length :=
  List.length_insertionSort scoreGE l

theorem applyHalvingFallback_sorted (b : Bool) (l : List Recommendation)
    (h : List.Sorted scoreGE l) :
    List.Sorted scoreGE (applyHalvingFallback b l) := by
  simp only [applyHalvingFallback]
  split
  · exact sortByScore_sorted _
  · exact h

theorem applyHalvingFallback_length (b : Bool) (l : List Recommendation) :
    (applyHalvingFallback b l).length = l.length := by
  simp only [applyHalvingFallback]
  split
  · rw [sortByScore_length, List.length_map]
  · rfl

theorem attachArrival_score (t : ℚ) (r : Recommendation) :
    (attachArrival t r).score = r.score := rfl

/-! ### Weight-vector lemmas (claims C4 and C5) -/

theorem weightSum_normalizeWeights (w : Weights) (h : 0 < weightSum w) :
    weightSum (normalizeWeights w) = 1 := by
  simp only [normalizeWeights, if_pos h]
  simp only [weightSum] at h ⊢
  field_simp

theorem weightSum_batteryAdjust_pos (u : Urgency) (b : ℚ) :
    0 < weightSum (batteryAdjust b (urgencyWeights u)) := by
  cases u <;>
    · simp only [urgencyWeights, baseWeights, batteryAdjust]
      split_ifs <;> norm_num [weightSum, min_def, max_def]

/-- C4: for every urgency tier and battery level, the normalized weight
vector that `calculate_enhanced_score` multiplies the seven factor scores by
sums to 1.0 (within 1e-9 — in the exact rational model the sum is exactly
1). -/
theorem C4_weights_sum_to_one (u : Urgency) (b : ℚ) :
    |weightSum (effectiveWeights u b) - 1| ≤ 1 / 1000000000 := by
  unfold effectiveWeights
  rw [weightSum_normalizeWeights _ (weightSum_batteryAdjust_pos u b)]
  norm_num

/-- C5 counterexample: under emergency urgency at battery level 10 the
price and rating weights actually used are *not* zero — the
`max(0.05, ...)`/`max(0.02, ...)` floors of the battery adjustment raise
the emergency table's zeros back to positive values. -/
theorem C5_cex_emergency_price_weight_nonzero :
    (effectiveWeights Urgency.emergency 10).price ≠ 0 ∧
      (effectiveWeights Urgency.emergency 10).rating ≠ 0 := by
  norm_num [effectiveWeights, urgencyWeights, batteryAdjust, normalizeWeights,
    weightSum, min_def, max_def]

/-- C5 (amended): under emergency urgency the plug-compatibility weight is
zero at every battery level; the price and rating weights are zero exactly
when battery > 40 (above the floored low-battery tiers), and the price
weight is strictly positive when battery ≤ 40. -/
theorem C5_emergency_weights (b : ℚ) :
    (effectiveWeights Urgency.emergency b).plug_compatibility = 0 ∧
      (40 < b → (effectiveWeights Urgency.emergency b).price = 0 ∧
        (effectiveWeights Urgency.emergency b).rating = 0) ∧
      (b ≤ 40 → 0 < (effectiveWeights Urgency.emergency b).price) := by
  rcases le_or_lt b 20 with h1 | h1
  · have h2 : ¬ (40 : ℚ) < b := by linarith
    simp only [effectiveWeights, urgencyWeights, batteryAdjust, if_pos h1]
    norm_num [normalizeWeights, weightSum, min_def, max_def, h2]
  · rcases le_or_lt b 40 with h2 | h2
    · have h3 : ¬ (40 : ℚ) < b := by linarith
      have h1' : ¬ b ≤ (20 : ℚ) := by linarith
      simp only [effectiveWeights, urgencyWeights, batteryAdjust, if_neg h1', if_pos h2]
      norm_num [normalizeWeights, weightSum, min_def, max_def, h3]
    · have h1' : ¬ b ≤ (20 : ℚ) := by linarith
      have h2' : ¬ b ≤ (40 : ℚ) := by linarith
      have h4 : ¬ b ≤ (40 : ℚ) := h2'
      rcases le_or_lt 80 b with h5 | h5
      · simp only [effectiveWeights, urgencyWeights, batteryAdjust, if_neg h1', if_neg h2',
          if_pos h5]
        norm_num [normalizeWeights, weightSum, min_def, max_def, h2]
      · have h5' : ¬ (80 : ℚ) ≤ b := by linarith
        simp only [effectiveWeights, urgencyWeights, batteryAdjust, if_neg h1', if_neg h2',
          if_neg h5']
        norm_num [normalizeWeights, weightSum, min_def, max_def, h2]

/-- C5 witness: the amended statement applied at battery levels 50 and 10:
at battery 50 the emergency price weight is zero, at battery 10 it is
positive. -/
theorem C5_emergency_weights_witness :
    (effectiveWeights Urgency.emergency 50).price = 0 ∧
      0 < (effectiveWeights Urgency.emergency 10).price := by
  exact ⟨((C5_emergency_weights 50).2.1 (by norm_num)).1,
    (C5_emergency_weights 10).2.2 (by norm_num)⟩

/-- C9: called on an empty candidate list, the orchestrator returns a
result whose recommendation list is empty and whose metadata records zero
stations processed (the embedded function is total, so no exception is
possible). -/
theorem C9_empty_candidates (geo : Geo) (now elapsedMs : ℚ) (userLoc : ℚ × ℚ)
    (ctx : UserContext) (k : ℕ) :
    (getEnhancedRecommendations geo now elapsedMs userLoc [] ctx k).recommendations = [] ∧
      (getEnhancedRecommendations geo now elapsedMs userLoc [] ctx
          k).algorithm_info.total_stations_processed = 0 := by
  simp [getEnhancedRecommendations]

/-! ### Sub-score bounds (claim C3) -/

theorem totalConsumption_eq (d : ℚ) (ac : Bool) (p : ℤ) (t : Terrain) :
    totalConsumption d ac p t = d * consFactor ac p t := by
  simp only [totalConsumption, consFactor, baseConsumption, acPenaltyOf, passengerPenaltyOf,
    terrainPenaltyOf]
  split_ifs <;> ring

theorem consFactor_pos (ac : Bool) (p : ℤ) (t : Terrain) : 0 < consFactor ac p t := by
  have hm : (0 : ℚ) ≤ ((max 0 (p - 1) : ℤ) : ℚ) := by exact_mod_cast le_max_left 0 (p - 1)
  unfold consFactor
  split_ifs <;> cases t <;> simp only [terrainMultiplier] <;> linarith

theorem totalConsumption_nonneg (d : ℚ) (ac : Bool) (p : ℤ) (t : Terrain)
    (hd : 0 ≤ d) : 0 ≤ totalConsumption d ac p t := by
  rw [totalConsumption_eq]
  exact mul_nonneg hd (consFactor_pos ac p t).le

theorem energyEff_mem (d : ℚ) (ac : Bool) (p : ℤ) (t : Terrain) (battery : ℚ)
    (hd : 0 ≤ d) (hb : 1 ≤ battery) :
    inUnit (calculateEnergyConsumption d ac p t battery).energy_efficiency_score := by
  have husable : 0 < battery / 100 * 60 * (4/5) := by nlinarith
  have htot : 0 ≤ totalConsumption d ac p t := totalConsumption_nonneg d ac p t hd
  have hquot : 0 ≤ totalConsumption d ac p t / (battery / 100 * 60 * (4/5)) :=
    div_nonneg htot husable.le
  simp only [calculateEnergyConsumption, if_pos husable, inUnit]
  constructor
  · exact le_max_left 0 _
  · exact max_le (by norm_num) (by linarith)

theorem adjustedEnergyScore_mem (b : ℚ) (r : Bool) (e : ℚ) (he : inUnit e) :
    inUnit (adjustedEnergyScore b r e) := by
  obtain ⟨h0, h1⟩ := he
  unfold adjustedEnergyScore inUnit
  split_ifs <;> refine ⟨?_, ?_⟩ <;>
    first
      | exact le_min (by norm_num) (by nlinarith)
      | exact min_le_left _ _
      | nlinarith

theorem urgencyScoreOf_mem (u : Urgency) (d r : ℚ) : inUnit (urgencyScoreOf u d r) := by
  unfold inUnit urgencyScoreOf urgencyMultiplier
  cases u <;> try split_ifs
  all_goals constructor <;> norm_num [min_def]

theorem priceScore_nonneg (p : ℚ) : 0 ≤ priceScore p := le_max_left 0 _

theorem priceScore_le_one (p : ℚ) (h : 10 ≤ p) : priceScore p ≤ 1 := by
  have : (0 : ℚ) ≤ (p - 10) / 25 := div_nonneg (by linarith) (by norm_num)
  exact max_le (by norm_num) (by linarith)

theorem plugScore_mem (plug : String) (cts : List String) :
    inUnit (plugCompatibilityScore plug cts) := by
  unfold plugCompatibilityScore inUnit
  split_ifs <;> norm_num

theorem ratingScore_mem (r : ℚ) (h0 : 0 ≤ r) (h5 : r ≤ 5) : inUnit (ratingScore r) := by
  unfold ratingScore inUnit
  constructor
  · positivity
  · linarith

theorem distanceScore_mem (d : ℚ) (hd : 0 ≤ d) : inUnit (distanceScore d) := by
  have : (0 : ℚ) ≤ d / 50 := by positivity
  exact ⟨le_max_left 0 _, max_le (by norm_num) (by linarith)⟩

theorem availabilityScore_mem (a t : ℕ) (hav : a ≤ t) : inUnit (availabilityScore a t) := by
  unfold availabilityScore inUnit
  split_ifs with h
  · have ht : (0 : ℚ) < t := by exact_mod_cast h
    constructor
    · positivity
    · rw [div_le_one ht]
      exact_mod_cast hav
  · norm_num

theorem etaMinutes_nonneg (d : ℚ) (m : DrivingMode) (tc : Traffic) (t : Terrain)
    (w : Weather) (hd : 0 ≤ d) :
    0 ≤ (calculateEta d m tc t w).travel_time_minutes := by
  simp only [calculateEta]
  have hs : (0 : ℚ) < max 5 (min 120 (drivingSpeed m * trafficMult tc *
      terrainSpeedImpact t * weatherImpact w)) :=
    lt_of_lt_of_le (by norm_num) (le_max_left 5 _)
  exact pyRound_nonneg 1 (by positivity)

theorem etaScore_mem (m : ℚ) (hm : 0 ≤ m) : inUnit (etaScore m) := by
  have : (0 : ℚ) ≤ m / 120 := by positivity
  exact ⟨le_max_left 0 _, max_le (by norm_num) (by linarith)⟩

theorem inUnit_pyRound (n : ℕ) (x : ℚ) (h : inUnit x) : inUnit (pyRound n x) :=
  ⟨pyRound_nonneg n h.1, pyRound_le_one n h.2⟩

theorem inUnit_clamp (x : ℚ) : inUnit (min 1 (max 0 x)) :=
  ⟨le_min (by norm_num) (le_max_left 0 x), min_le_left 1 _⟩

theorem one_le_clampQ (b : ℚ) : 1 ≤ clampQ 1 100 b := le_max_left 1 _

/-- C3 counterexample: the price sub-score is *not* clamped to `[0, 1]`:
for a station priced at 0 (below the assumed 10–35 domain) the recorded
price sub-score is `1.4 > 1` (the code only applies `max(0, ...)`). -/
theorem C3_cex_price_score_above_one :
    (calculateEnhancedScore (normalizeStation stCheap) 10 ctxDefaultC).breakdown.price_score =
        7/5 ∧
      ¬ ((7 : ℚ)/5 ≤ 1) := by
  constructor
  · norm_num [calculateEnhancedScore, normalizeStation, stCheap, ctxDefaultC, priceScore,
      pyRound, rndHalfEven]
  · norm_num

/-- C3 (amended): for every station and context with a nonnegative
distance, the station invariants `availability ≤ total_slots` and
`0 ≤ rating ≤ 5`, all sub-scores except price lie in `[0, 1]`, the price
sub-score is nonnegative and lies in `[0, 1]` whenever the station price is
at least 10, and the composite total score always lies in `[0, 1]`. -/
theorem C3_subscores_bounded (st : NormStation) (d : ℚ) (ctx : UserContext)
    (hd : 0 ≤ d) (hav : st.availability ≤ st.total_slots)
    (hr0 : 0 ≤ st.rating) (hr5 : st.rating ≤ 5) :
    inUnit (calculateEnhancedScore st d ctx).breakdown.distance_score ∧
      inUnit (calculateEnhancedScore st d ctx).breakdown.availability_score ∧
      inUnit (calculateEnhancedScore st d ctx).breakdown.energy_efficiency_score ∧
      inUnit (calculateEnhancedScore st d ctx).breakdown.urgency_score ∧
      (0 ≤ (calculateEnhancedScore st d ctx).breakdown.price_score ∧
        (10 ≤ st.pricing → (calculateEnhancedScore st d ctx).breakdown.price_score ≤ 1)) ∧
      inUnit (calculateEnhancedScore st d ctx).breakdown.plug_compatibility_score ∧
      inUnit (calculateEnhancedScore st d ctx).breakdown.rating_score ∧
      inUnit (calculateEnhancedScore st d ctx).breakdown.eta_score ∧
      inUnit (calculateEnhancedScore st d ctx).total_score := by
  simp only [calculateEnhancedScore]
  refine ⟨?_, ?_, ?_, ?_, ⟨?_, ?_⟩, ?_, ?_, ?_, ?_⟩
  · exact inUnit_pyRound 3 _ (distanceScore_mem d hd)
  · exact inUnit_pyRound 3 _ (availabilityScore_mem _ _ hav)
  · exact inUnit_pyRound 3 _ (adjustedEnergyScore_mem _ _ _
      (energyEff_mem d ctx.ac_status _ ctx.terrain _ hd (one_le_clampQ _)))
  · exact inUnit_pyRound 3 _ (urgencyScoreOf_mem ctx.urgency d st.rating)
  · exact pyRound_nonneg 3 (priceScore_nonneg st.pricing)
  · intro h
    exact pyRound_le_one 3 (priceScore_le_one st.pricing h)
  · exact inUnit_pyRound 3 _ (plugScore_mem ctx.plug_type st.connector_types)
  · exact inUnit_pyRound 3 _ (ratingScore_mem st.rating hr0 hr5)
  · exact inUnit_pyRound 3 _ (etaScore_mem _
      (etaMinutes_nonneg d ctx.driving_mode ctx.traffic_condition ctx.terrain ctx.weather hd))
  · exact inUnit_clamp _

/-- C3 witness: the amended bound theorem applied to the concrete station
`stA` at distance 5 under the default context. -/
theorem C3_subscores_bounded_witness :
    inUnit (calculateEnhancedScore (normalizeStation stA) 5 ctxDefaultC).total_score ∧
      inUnit (calculateEnhancedScore (normalizeStation stA) 5 ctxDefaultC).breakdown.eta_score :=
  ⟨(C3_subscores_bounded (normalizeStation stA) 5 ctxDefaultC (by norm_num)
      (by norm_num [normalizeStation, stA]) (by norm_num [normalizeStation, stA])
      (by norm_num [normalizeStation, stA])).2.2.2.2.2.2.2.2,
    (C3_subscores_bounded (normalizeStation stA) 5 ctxDefaultC (by norm_num)
      (by norm_num [normalizeStation, stA]) (by norm_num [normalizeStation, stA])
      (by norm_num [normalizeStation, stA])).2.2.2.2.2.2.2.1⟩

/-! ### Energy-consumption monotonicity (claim C6) -/

theorem consFactor_mono_p (ac : Bool) (t : Terrain) {p1 p2 : ℤ} (h : p1 ≤ p2) :
    consFactor ac p1 t ≤ consFactor ac p2 t := by
  have hmax : (max 0 (p1 - 1) : ℤ) ≤ max 0 (p2 - 1) :=
    max_le_max le_rfl (sub_le_sub_right h 1)
  have hc : ((max 0 (p1 - 1) : ℤ) : ℚ) ≤ ((max 0 (p2 - 1) : ℤ) : ℚ) := by exact_mod_cast hmax
  unfold consFactor
  split_ifs <;> linarith

theorem consFactor_ac_lt (p : ℤ) (t : Terrain) :
    consFactor false p t < consFactor true p t := by
  unfold consFactor
  norm_num

theorem consFactor_terrain_lt (ac : Bool) (p : ℤ) :
    consFactor ac p Terrain.flat < consFactor ac p Terrain.hilly ∧
      consFactor ac p Terrain.hilly < consFactor ac p Terrain.steep := by
  unfold consFactor terrainMultiplier
  split_ifs <;> constructor <;> norm_num

/-- C6 counterexample: at distance 0 the total consumption (both the exact
value and the reported `total_consumption_kwh` field) does not strictly
increase when the AC flips on or the terrain steepens — all totals are 0 —
so the claim quantified "over every distance, including distance = 0" fails;
moreover at distance 0.01 km the 2-decimal rounded report also coincides for
the AC flip even though the distance is positive. -/
theorem C6_cex_zero_distance :
    (calculateEnergyConsumption 0 false 1 Terrain.flat 50).total_consumption_kwh =
        (calculateEnergyConsumption 0 true 1 Terrain.flat 50).total_consumption_kwh ∧
      (calculateEnergyConsumption 0 false 1 Terrain.flat 50).total_consumption_kwh =
        (calculateEnergyConsumption 0 false 1 Terrain.hilly 50).total_consumption_kwh ∧
      (calculateEnergyConsumption 0 false 1 Terrain.hilly 50).total_consumption_kwh =
        (calculateEnergyConsumption 0 false 1 Terrain.steep 50).total_consumption_kwh ∧
      (calculateEnergyConsumption (1/100) false 1 Terrain.flat 50).total_consumption_kwh =
        (calculateEnergyConsumption (1/100) true 1 Terrain.flat 50).total_consumption_kwh := by
  norm_num [calculateEnergyConsumption, totalConsumption, baseConsumption, acPenaltyOf,
    passengerPenaltyOf, terrainPenaltyOf, terrainMultiplier, pyRound, rndHalfEven]

/-- C6 (amended): the exact total consumption is monotonically
non-decreasing in distance and (for nonnegative distance) in passenger
count — and so is the 2-decimal rounded `total_consumption_kwh` report —
and it strictly increases under an AC flip or a terrain upgrade whenever
the distance is strictly positive (the rounded report may collapse small
strict increases). -/
theorem C6_energy_monotonic (ac : Bool) (p : ℤ) (t : Terrain) (battery : ℚ) :
    (∀ d1 d2 : ℚ, d1 ≤ d2 →
        totalConsumption d1 ac p t ≤ totalConsumption d2 ac p t ∧
          (calculateEnergyConsumption d1 ac p t battery).total_consumption_kwh ≤
            (calculateEnergyConsumption d2 ac p t battery).total_consumption_kwh) ∧
      (∀ (d : ℚ) (p1 p2 : ℤ), 0 ≤ d → p1 ≤ p2 →
        totalConsumption d ac p1 t ≤ totalConsumption d ac p2 t ∧
          (calculateEnergyConsumption d ac p1 t battery).total_consumption_kwh ≤
            (calculateEnergyConsumption d ac p2 t battery).total_consumption_kwh) ∧
      (∀ d : ℚ, 0 < d → totalConsumption d false p t < totalConsumption d true p t) ∧
      (∀ d : ℚ, 0 < d →
        totalConsumption d ac p Terrain.flat < totalConsumption d ac p Terrain.hilly ∧
          totalConsumption d ac p Terrain.hilly < totalConsumption d ac p Terrain.steep) := by
  refine ⟨?_, ?_, ?_, ?_⟩
  · intro d1 d2 h
    have hbase : totalConsumption d1 ac p t ≤ totalConsumption d2 ac p t := by
      rw [totalConsumption_eq, totalConsumption_eq]
      exact mul_le_mul_of_nonneg_right h (consFactor_pos ac p t).le
    exact ⟨hbase, by simpa [calculateEnergyConsumption] using pyRound_mono 2 hbase⟩
  · intro d p1 p2 hd h
    have hbase : totalConsumption d ac p1 t ≤ totalConsumption d ac p2 t := by
      rw [totalConsumption_eq, totalConsumption_eq]
      exact mul_le_mul_of_nonneg_left (consFactor_mono_p ac t h) hd
    exact ⟨hbase, by simpa [calculateEnergyConsumption] using pyRound_mono 2 hbase⟩
  · intro d hd
    rw [totalConsumption_eq, totalConsumption_eq]
    exact mul_lt_mul_of_pos_left (consFactor_ac_lt p t) hd
  · intro d hd
    constructor
    · rw [totalConsumption_eq, totalConsumption_eq]
      exact mul_lt_mul_of_pos_left (consFactor_terrain_lt ac p).1 hd
    · rw [totalConsumption_eq, totalConsumption_eq]
      exact mul_lt_mul_of_pos_left (consFactor_terrain_lt ac p).2 hd

/-- C6 witness: the amended monotonicity theorem applied at concrete
distances and passenger counts. -/
theorem C6_energy_monotonic_witness :
    totalConsumption 1 false 1 Terrain.flat ≤ totalConsumption 2 false 1 Terrain.flat ∧
      totalConsumption 3 false 1 Terrain.flat ≤ totalConsumption 3 false 4 Terrain.flat ∧
      totalConsumption 3 false 1 Terrain.flat < totalConsumption 3 true 1 Terrain.flat :=
  ⟨((C6_energy_monotonic false 1 Terrain.flat 100).1 1 2 (by norm_num)).1,
    ((C6_energy_monotonic false 1 Terrain.flat 100).2.1 3 1 4 (by norm_num) (by norm_num)).1,
    (C6_energy_monotonic false 1 Terrain.flat 100).2.2.1 3 (by norm_num)⟩

/-! ### Route filtering (claim C7) -/

theorem buildRec_not_route_outcome (geo : Geo) (userLoc stLoc : ℚ × ℚ)
    (ctx : UserContext) (sf : Bool) (s : Station) (raOpt : Option RouteAnalysis) :
    buildRec geo userLoc stLoc ctx sf s raOpt ≠ Outcome.invalid ∧
      buildRec geo userLoc stLoc ctx sf s raOpt ≠ Outcome.routeFiltered := by
  simp only [buildRec]
  split <;> simp

/-- C7: with the 20 km default detour budget, a candidate whose computed
detour is 90 km is dropped by the route filter at medium urgency
(budget 20 × 1.0 < 90); at emergency urgency the same filter admits to
scoring every candidate whose distance from the user is at most 50 km,
regardless of detour and bearing difference. -/
theorem C7_route_filter (geo : Geo) (O D S : ℚ × ℚ) (ctx : UserContext) (s : Station)
    (sf : Bool) (hloc : resolveLocation s = some S) (hbud : ctx.max_detour_km = 20) :
    (ctx.urgency = Urgency.medium →
      geo.dist O S + geo.dist S D - geo.dist O D = 90 →
      processStation geo O (some D) ctx sf s = Outcome.routeFiltered) ∧
      (ctx.urgency = Urgency.emergency → geo.dist O S ≤ 50 →
        processStation geo O (some D) ctx sf s ≠ Outcome.invalid ∧
          processStation geo O (some D) ctx sf s ≠ Outcome.routeFiltered) := by
  constructor
  · intro hu hdet
    have hme : ¬ (Urgency.medium = Urgency.emergency) := fun h => by cases h
    simp only [processStation, hloc]
    norm_num [routeCheck, isStationAlongRoute, hu, hbud, hdet, urgencyDetourMult, hme]
  · intro hu h50
    have hb := buildRec_not_route_outcome geo O S ctx sf s
    simp only [processStation, hloc]
    simp only [routeCheck, isStationAlongRoute, hu, h50, and_self, if_pos, if_true]
    simpa using hb _

/-- C7 witness: a concrete 90 km-detour station rejected at medium urgency,
and a concrete 40 km-away station admitted at emergency urgency. -/
theorem C7_route_filter_witness :
    processStation geoRouteM ((0 : ℚ), (0 : ℚ)) (some ((0 : ℚ), (1 : ℚ))) ctxDefaultC false
        stRoute = Outcome.routeFiltered ∧
      processStation geoRouteE ((0 : ℚ), (0 : ℚ)) (some ((0 : ℚ), (1 : ℚ))) ctxEmergOnly false
        stRoute ≠ Outcome.routeFiltered := by
  constructor
  · exact (C7_route_filter geoRouteM ((0 : ℚ), (0 : ℚ)) ((0 : ℚ), (1 : ℚ)) ((1 : ℚ), (0 : ℚ))
      ctxDefaultC stRoute false (by norm_num [resolveLocation, stRoute]) (by rfl)).1 (by rfl)
      (by norm_num [geoRouteM, Prod.ext_iff])
  · exact ((C7_route_filter geoRouteE ((0 : ℚ), (0 : ℚ)) ((0 : ℚ), (1 : ℚ)) ((1 : ℚ), (0 : ℚ))
      ctxEmergOnly stRoute false (by norm_num [resolveLocation, stRoute]) (by rfl)).2 (by rfl)
      (by norm_num [geoRouteE, Prod.ext_iff])).2

/-- C8: two runs on identical inputs yield identical orderings and scores —
the embedded orchestrator is a pure function, and the only environmental
inputs (the clock readings `now`/`elapsedMs`) influence neither the
recommendation order nor any score. -/
theorem C8_deterministic (geo : Geo) (t1 e1 t2 e2 : ℚ) (userLoc : ℚ × ℚ)
    (stations : List Station) (ctx : UserContext) (k : ℕ) :
    (getEnhancedRecommendations geo t1 e1 userLoc stations ctx k).recommendations.map
        (fun r => (r.id, r.score)) =
      (getEnhancedRecommendations geo t2 e2 userLoc stations ctx k).recommendations.map
        (fun r => (r.id, r.score)) := by
  by_cases h : stations = []
  · simp [getEnhancedRecommendations, h]
  · simp only [getEnhancedRecommendations, if_neg h, List.map_map]
    have hc : ((fun r : Recommendation => (r.id, r.score)) ∘ attachArrival t1) =
        ((fun r : Recommendation => (r.id, r.score)) ∘ attachArrival t2) := rfl
    rw [hc]

/-! ### Output ordering (claim C2) -/

set_option maxHeartbeats 2000000 in
/-- C2 counterexample: the sort of line 820 has no identifier tie-break —
two identical stations keep their input order (here ids `[2, 1]`, not
ascending), so the output ordering depends on the candidate permutation
(`[stA, stB]` yields `[1, 2]`); moreover the basic-fallback path appends
entries without re-sorting, producing the non-monotone score list
`[0.1, 0.4]`. -/
theorem C2_cex_tie_break_and_fallback_order :
    (getEnhancedRecommendations geoConst5 0 0 ((0 : ℚ), (0 : ℚ)) [stB, stA] ctxDefaultC
        5).recommendations.map (fun r => (r.id, r.score)) =
        [(2, 428773/492000), (1, 428773/492000)] ∧
      (getEnhancedRecommendations geoConst5 0 0 ((0 : ℚ), (0 : ℚ)) [stA, stB] ctxDefaultC
        5).recommendations.map (fun r => r.id) = [1, 2] ∧
      (getEnhancedRecommendations geoSplit 0 0 ((0 : ℚ), (0 : ℚ)) [stFar, stNear] ctxBat10Med
        5).recommendations.map (fun r => r.score) = [1/10, 2/5] ∧
      ¬ ((2 : ℚ)/5 ≤ 1/10) := by
  refine ⟨?_, ?_, ?_, by norm_num⟩ <;>
    (simp only [getEnhancedRecommendations]; rw [if_neg (List.cons_ne_nil _ _)]) <;>
    norm_num [finalScoredOf, applyHalvingFallback, sortedScoredOf,
      sortByScore, scoredOf, outcomesOf, processStation, buildRec, destCoordsOf,
      shouldFilterUnreachable, resolveLocation, resolveLocationBasic, basicFallbackRecs,
      calculateEnhancedScore, calculateEnergyConsumption, calculateEta, normalizeStation,
      totalConsumption, baseConsumption, acPenaltyOf, passengerPenaltyOf, terrainPenaltyOf,
      terrainMultiplier, drivingSpeed, trafficMult, terrainSpeedImpact, weatherImpact,
      effectiveWeights, normalizeWeights, batteryAdjust, urgencyWeights, weightSum, baseWeights,
      distanceScore, availabilityScore, adjustedEnergyScore, urgencyScoreOf, urgencyMultiplier,
      priceScore, plugCompatibilityScore, ratingScore, etaScore, clampQ, scoreGE,
      Outcome.getScored, attachArrival, pyRound, rndHalfEven, List.filterMap_cons,
      Prod.ext_iff, geoConst5, geoSplit, stA, stB, stFar, stNear, ctxDefaultC, ctxBat10Med]

/-- C2 (amended): whenever at least one candidate survives filtering (so
the basic-fallback synthesis path is not taken), the returned recommendation
list is sorted non-increasing by score.  There is no identifier tie-break:
equal-score entries follow the supplied candidate order, so the output
ordering is not invariant under permutations of the candidate list. -/
theorem C2_sorted_by_score (geo : Geo) (now elapsedMs : ℚ) (userLoc : ℚ × ℚ)
    (stations : List Station) (ctx : UserContext) (k : ℕ)
    (h : scoredOf geo userLoc ctx stations ≠ []) :
    List.Sorted scoreGE
      (getEnhancedRecommendations geo now elapsedMs userLoc stations ctx k).recommendations := by
  have hne : applyHalvingFallback (shouldFilterUnreachable ctx)
      (sortedScoredOf geo userLoc ctx stations) ≠ [] := by
    intro he
    have hlen := congrArg List.length he
    rw [applyHalvingFallback_length, sortedScoredOf, sortByScore_length] at hlen
    exact h (List.length_eq_zero.mp hlen)
  have hstations : stations ≠ [] := by
    intro he
    apply h
    rw [he]
    rfl
  have hsorted2 : List.Sorted scoreGE (applyHalvingFallback (shouldFilterUnreachable ctx)
      (sortedScoredOf geo userLoc ctx stations)) :=
    applyHalvingFallback_sorted _ _ (sortByScore_sorted _)
  have hfin : finalScoredOf geo userLoc ctx stations k =
      applyHalvingFallback (shouldFilterUnreachable ctx)
        (sortedScoredOf geo userLoc ctx stations) := by
    unfold finalScoredOf
    obtain ⟨a, L, hL⟩ := List.exists_cons_of_ne_nil hne
    rw [hL]
    rfl
  simp only [getEnhancedRecommendations, if_neg hstations]
  rw [hfin]
  exact ((hsorted2.sublist (List.take_sublist k _)).map _ (fun _ _ hab => hab))

set_option maxHeartbeats 2000000 in
/-- C2 witness: the amended sortedness theorem applied to a concrete run
with two scored candidates. -/
theorem C2_sorted_by_score_witness :
    List.Sorted scoreGE
      (getEnhancedRecommendations geoConst5 0 0 ((0 : ℚ), (0 : ℚ)) [stB, stA] ctxDefaultC
        5).recommendations :=
  C2_sorted_by_score geoConst5 0 0 ((0 : ℚ), (0 : ℚ)) [stB, stA] ctxDefaultC 5 (by
    norm_num [scoredOf, outcomesOf, processStation, buildRec, destCoordsOf,
      shouldFilterUnreachable, resolveLocation, calculateEnhancedScore,
      calculateEnergyConsumption, calculateEta, normalizeStation, totalConsumption,
      baseConsumption, acPenaltyOf, passengerPenaltyOf, terrainPenaltyOf, terrainMultiplier,
      drivingSpeed, trafficMult, terrainSpeedImpact, weatherImpact, effectiveWeights,
      normalizeWeights, batteryAdjust, urgencyWeights, weightSum, baseWeights, distanceScore,
      availabilityScore, adjustedEnergyScore, urgencyScoreOf, urgencyMultiplier, priceScore,
      plugCompatibilityScore, ratingScore, etaScore, clampQ, Outcome.getScored, pyRound,
      rndHalfEven, List.filterMap_cons, geoConst5, stA, stB, ctxDefaultC]
    exact List.cons_ne_nil _ _)

/-! ### Invalid-coordinate candidates (claim C10) -/

theorem length_scoredOf_le (geo : Geo) (userLoc : ℚ × ℚ) (ctx : UserContext)
    (stations : List Station) :
    (scoredOf geo userLoc ctx stations).length ≤ stations.length := by
  unfold scoredOf outcomesOf
  calc (List.filterMap Outcome.getScored (stations.map
        (processStation geo userLoc (destCoordsOf ctx) ctx
          (shouldFilterUnreachable ctx)))).length
      ≤ (stations.map (processStation geo userLoc (destCoordsOf ctx) ctx
          (shouldFilterUnreachable ctx))).length := List.length_filterMap_le _ _
    _ = stations.length := List.length_map _ _

theorem applyHalving_sorted_ne_nil (geo : Geo) (userLoc : ℚ × ℚ) (ctx : UserContext)
    (stations : List Station) (h : scoredOf geo userLoc ctx stations ≠ []) :
    applyHalvingFallback (shouldFilterUnreachable ctx)
      (sortedScoredOf geo userLoc ctx stations) ≠ [] := by
  intro he
  have hlen := congrArg List.length he
  rw [applyHalvingFallback_length, sortedScoredOf, sortByScore_length] at hlen
  exact h (List.length_eq_zero.mp hlen)

theorem finalScoredOf_of_ne_nil (geo : Geo) (userLoc : ℚ × ℚ) (ctx : UserContext)
    (stations : List Station) (k : ℕ) (h : scoredOf geo userLoc ctx stations ≠ []) :
    finalScoredOf geo userLoc ctx stations k =
      applyHalvingFallback (shouldFilterUnreachable ctx)
        (sortedScoredOf geo userLoc ctx stations) := by
  unfold finalScoredOf
  obtain ⟨a, L, hL⟩ := List.exists_cons_of_ne_nil (applyHalving_sorted_ne_nil geo userLoc ctx stations h)
  rw [hL]
  rfl

/-- C10 counterexample: the claim fails on the basic-fallback path.  With
battery 10% (unreachable filter on), a single valid candidate 40 km away
(unreachable, so nothing is scored) and `max_recommendations = 1`, the
basic fallback windows `stations[:1]`: a coordinate-less record supplied
first occupies the only window slot and displaces the valid candidate —
the run returns no recommendation at all (instead of the valid station's
basic entry) and `stations_filtered` is 2, not one more than the 0 of the
run without the invalid record. -/
theorem C10_cex_fallback_window_displacement :
    resolveLocation stInvalid = none ∧
      (getEnhancedRecommendations geoConst40 0 0 ((0 : ℚ), (0 : ℚ)) [stInvalid, stA] ctxBat10Med
        1).recommendations = [] ∧
      (getEnhancedRecommendations geoConst40 0 0 ((0 : ℚ), (0 : ℚ)) [stA] ctxBat10Med
        1).recommendations.map (fun r => r.id) = [1] ∧
      (getEnhancedRecommendations geoConst40 0 0 ((0 : ℚ), (0 : ℚ)) [stInvalid, stA] ctxBat10Med
        1).algorithm_info.stations_filtered = 2 ∧
      (getEnhancedRecommendations geoConst40 0 0 ((0 : ℚ), (0 : ℚ)) [stA] ctxBat10Med
        1).algorithm_info.stations_filtered = 0 := by
  refine ⟨by norm_num [resolveLocation, stInvalid], ?_, ?_, ?_, ?_⟩ <;>
    (simp only [getEnhancedRecommendations]; rw [if_neg (List.cons_ne_nil _ _)]) <;>
    norm_num [finalScoredOf, applyHalvingFallback, sortedScoredOf, sortByScore, scoredOf,
      outcomesOf, processStation, buildRec, destCoordsOf, shouldFilterUnreachable,
      resolveLocation, resolveLocationBasic, basicFallbackRecs, calculateEnhancedScore,
      calculateEnergyConsumption, calculateEta, normalizeStation, totalConsumption,
      baseConsumption, acPenaltyOf, passengerPenaltyOf, terrainPenaltyOf, terrainMultiplier,
      drivingSpeed, trafficMult, terrainSpeedImpact, weatherImpact, effectiveWeights,
      normalizeWeights, batteryAdjust, urgencyWeights, weightSum, baseWeights, distanceScore,
      availabilityScore, adjustedEnergyScore, urgencyScoreOf, urgencyMultiplier, priceScore,
      plugCompatibilityScore, ratingScore, etaScore, clampQ, Outcome.getScored,
      Outcome.isUnreachableFiltered, Outcome.isRouteFiltered, attachArrival, pyRound,
      rndHalfEven, List.filterMap_cons, List.filter_cons, geoConst40, stA, stInvalid,
      ctxBat10Med]

/-- C10 (amended): a candidate with no resolvable coordinates is skipped by
the per-candidate loop (outcome `invalid`, no exception) and contributes no
scored entry and no route/unreachable count; and *whenever at least one
candidate was scored* — so the basic-fallback window over the raw candidate
list is not taken — the remaining candidates produce exactly the same
recommendations as if the invalid record had not been supplied and the
invalid record is charged to `stations_filtered` as exactly one extra
filtered station.  (When nothing is scored, the invalid record can displace
a valid candidate from the `stations[:max_recommendations]` fallback window
and be charged twice — the counterexample.) -/
theorem C10_invalid_station_skipped (geo : Geo) (now elapsedMs : ℚ) (userLoc : ℚ × ℚ)
    (xs ys : List Station) (s : Station) (ctx : UserContext) (k : ℕ)
    (hinv : resolveLocation s = none)
    (hne : scoredOf geo userLoc ctx (xs ++ ys) ≠ []) :
    processStation geo userLoc (destCoordsOf ctx) ctx (shouldFilterUnreachable ctx) s =
        Outcome.invalid ∧
      (getEnhancedRecommendations geo now elapsedMs userLoc (xs ++ s :: ys) ctx
          k).recommendations =
        (getEnhancedRecommendations geo now elapsedMs userLoc (xs ++ ys) ctx
          k).recommendations ∧
      (getEnhancedRecommendations geo now elapsedMs userLoc (xs ++ s :: ys) ctx
          k).algorithm_info.stations_filtered =
        (getEnhancedRecommendations geo now elapsedMs userLoc (xs ++ ys) ctx
          k).algorithm_info.stations_filtered + 1 ∧
      (getEnhancedRecommendations geo now elapsedMs userLoc (xs ++ s :: ys) ctx
          k).algorithm_info.total_stations_processed = (xs ++ ys).length + 1 := by
  have hout : processStation geo userLoc (destCoordsOf ctx) ctx
      (shouldFilterUnreachable ctx) s = Outcome.invalid := by
    simp [processStation, hinv]
  have hsc : scoredOf geo userLoc ctx (xs ++ s :: ys) = scoredOf geo userLoc ctx (xs ++ ys) := by
    simp only [scoredOf, outcomesOf, List.map_append, List.map_cons, List.filterMap_append,
      List.filterMap_cons, hout, Outcome.getScored]
  have hne' : scoredOf geo userLoc ctx (xs ++ s :: ys) ≠ [] := by
    rw [hsc]
    exact hne
  have hfin : finalScoredOf geo userLoc ctx (xs ++ s :: ys) k =
      finalScoredOf geo userLoc ctx (xs ++ ys) k := by
    rw [finalScoredOf_of_ne_nil geo userLoc ctx _ k hne',
      finalScoredOf_of_ne_nil geo userLoc ctx _ k hne]
    unfold sortedScoredOf
    rw [hsc]
  have hlen1 : (xs ++ s :: ys) ≠ [] := by simp
  have hlen2 : (xs ++ ys) ≠ [] := by
    intro he
    apply hne
    rw [he]
    rfl
  have hL : (finalScoredOf geo userLoc ctx (xs ++ ys) k).length ≤ (xs ++ ys).length := by
    rw [finalScoredOf_of_ne_nil geo userLoc ctx _ k hne, applyHalvingFallback_length,
      sortedScoredOf, sortByScore_length]
    exact length_scoredOf_le geo userLoc ctx (xs ++ ys)
  refine ⟨hout, ?_, ?_, ?_⟩
  · simp only [getEnhancedRecommendations, if_neg hlen1, if_neg hlen2, hfin]
  · simp only [List.length_append] at hL
    simp only [getEnhancedRecommendations, if_neg hlen1, if_neg hlen2, hfin]
    simp only [List.length_append, List.length_cons]
    omega
  · simp only [getEnhancedRecommendations, if_neg hlen1, List.length_append, List.length_cons]
    omega

/-- C10 witness: a concrete run with one valid and one coordinate-less
candidate. -/
theorem C10_invalid_station_skipped_witness :
    (getEnhancedRecommendations geoConst5 0 0 ((0 : ℚ), (0 : ℚ)) [stA, stInvalid] ctxDefaultC
        5).recommendations =
      (getEnhancedRecommendations geoConst5 0 0 ((0 : ℚ), (0 : ℚ)) [stA] ctxDefaultC
        5).recommendations :=
  ((C10_invalid_station_skipped geoConst5 0 0 ((0 : ℚ), (0 : ℚ)) [stA] [] stInvalid
    ctxDefaultC 5 (by norm_num [resolveLocation, stInvalid]) (by
      norm_num [scoredOf, outcomesOf, processStation, buildRec, destCoordsOf,
        shouldFilterUnreachable, resolveLocation, calculateEnhancedScore,
        calculateEnergyConsumption, calculateEta, normalizeStation, totalConsumption,
        baseConsumption, acPenaltyOf, passengerPenaltyOf, terrainPenaltyOf, terrainMultiplier,
        drivingSpeed, trafficMult, terrainSpeedImpact, weatherImpact, effectiveWeights,
        normalizeWeights, batteryAdjust, urgencyWeights, weightSum, baseWeights, distanceScore,
        availabilityScore, adjustedEnergyScore, urgencyScoreOf, urgencyMultiplier, priceScore,
        plugCompatibilityScore, ratingScore, etaScore, clampQ, Outcome.getScored, pyRound,
        rndHalfEven, List.filterMap_cons, geoConst5, stA, ctxDefaultC]
      try exact List.cons_ne_nil _ _)).2).1

/-! ### The degraded-fallback path (claim C1) -/

/-- C1 (code bug): with battery 10% and emergency urgency (so the
unreachable filter is active) and a single valid but unreachable candidate,
the run does return a non-empty list whose entry is flagged
`fallback_recommendation = true` — but the entry comes from the *basic*
distance-only fallback (reason `basicScoringIssues`, score
`max(0.1, 1 − d/50) = 0.2`), not from the score-halving fallback of
lines 822–835: that branch is dead because line 769 already removed every
unreachable station from `scored_stations`, so its score is not half of the
station's unfiltered score (which is `32869/84000`). -/
theorem C1_fallback_not_halved :
    shouldFilterUnreachable ctxBat10Em = true ∧
      (getEnhancedRecommendations geoConst40 0 0 ((0 : ℚ), (0 : ℚ)) [stA] ctxBat10Em
          5).recommendations.map
          (fun r => (r.id, r.score, r.fallback_recommendation, r.fallback_reason)) =
        [(1, 1/5, true, some FallbackReason.basicScoringIssues)] ∧
      (getEnhancedRecommendations geoConst40 0 0 ((0 : ℚ), (0 : ℚ)) [stA] ctxBat10Em
          5).algorithm_info.unreachable_filtered = 1 ∧
      (calculateEnhancedScore (normalizeStation stA) 40 ctxBat10Em).total_score =
        32869/84000 ∧
      ¬ ((1 : ℚ)/5 = (1/2) * (32869/84000)) := by
  refine ⟨by norm_num [shouldFilterUnreachable, ctxBat10Em], ?_, ?_, ?_, by norm_num⟩ <;>
    (try (simp only [getEnhancedRecommendations]; rw [if_neg (List.cons_ne_nil _ _)])) <;>
    norm_num [finalScoredOf, applyHalvingFallback, sortedScoredOf, sortByScore, scoredOf,
      outcomesOf, processStation, buildRec, destCoordsOf, shouldFilterUnreachable,
      resolveLocation, resolveLocationBasic, basicFallbackRecs, calculateEnhancedScore,
      calculateEnergyConsumption, calculateEta, normalizeStation, totalConsumption,
      baseConsumption, acPenaltyOf, passengerPenaltyOf, terrainPenaltyOf, terrainMultiplier,
      drivingSpeed, trafficMult, terrainSpeedImpact, weatherImpact, effectiveWeights,
      normalizeWeights, batteryAdjust, urgencyWeights, weightSum, baseWeights, distanceScore,
      availabilityScore, adjustedEnergyScore, urgencyScoreOf, urgencyMultiplier, priceScore,
      plugCompatibilityScore, ratingScore, etaScore, clampQ, Outcome.getScored,
      Outcome.isUnreachableFiltered, attachArrival, pyRound, rndHalfEven, List.filterMap_cons,
      List.filter_cons, geoConst40, stA, ctxBat10Em]

end EVCharging
